import Mathlib

/-!
Verification development for the promptomatik authentication core.

Shallow embedding of:
- the JWT construction `generateJWT` and the server registration handler
  `onRequestPost` (functions/api/auth/register);
- the debugging registration handler (the second `onRequestPost`);
- the client auth context: `initializeAuth`, `login`, `register`, `logout`,
  `refreshToken`, `runMigration` (src/auth/AuthContext.js);
- the API service `getToken` (src/services/api.js).

JavaScript values are modelled by the inductive `JsValue`; `JSON.parse` /
`JSON.stringify` by an executable parser/printer; `btoa`/`atob` by
executable base64 encoders/decoders over char-code lists.  Platform
cryptographic primitives (`crypto.subtle.sign`, `crypto.subtle.digest`) are
abstracted as function parameters, since their output bytes are opaque to
every property proved here.
-/

namespace Promptomatik

/-- Model of a JavaScript runtime value as far as the auth code observes it:
JSON values plus `undefined` (the value of a missing property). -/
inductive JsValue where
  | null
  | undefined
  | bool (b : Bool)
  | num (n : Int)
  | str (s : String)
  | arr (xs : List JsValue)
  | obj (fs : List (String × JsValue))
  deriving Repr

/-- JavaScript truthiness: `null`, `undefined`, `false`, `0`, `""` are falsy;
every object and array is truthy.  (`NaN` does not arise in the modelled
code paths.) -/
def truthy : JsValue → Bool
  | .null => false
  | .undefined => false
  | .bool b => b
  | .num n => n != 0
  | .str s => s ≠ ""
  | .arr _ => true
  | .obj _ => true

/-- Is the value the JavaScript `null`? -/
def JsValue.isNull : JsValue → Bool
  | .null => true
  | _ => false

/-- `typeof v === "object"` (true for objects, arrays and `null`). -/
def typeofObject : JsValue → Bool
  | .obj _ => true
  | .arr _ => true
  | .null => true
  | _ => false

/-- Last-wins lookup of a key in an object's field list (`JSON.parse` keeps
the last duplicate key; the modelled code never builds duplicates). -/
def objLookup (fs : List (String × JsValue)) (k : String) : Option JsValue :=
  (fs.reverse.find? (fun p => p.1 = k)).map (·.2)

/-- Property read `v.k` on a value that is not `null`/`undefined`:
missing properties and non-object receivers give `undefined`. -/
def fieldD (v : JsValue) (k : String) : JsValue :=
  match v with
  | .obj fs => (objLookup fs k).getD .undefined
  | _ => .undefined

/-- Property read `v.k` including the throwing cases: reading a property of
`null` or `undefined` raises a TypeError, modelled as `none`. -/
def fieldAccess (v : JsValue) (k : String) : Option JsValue :=
  match v with
  | .null => none
  | .undefined => none
  | _ => some (fieldD v k)

/-- Optional chaining `v?.k`: `undefined` when the receiver is
`null`/`undefined`, otherwise an ordinary property read. -/
def optChain (v : JsValue) (k : String) : JsValue :=
  match v with
  | .null => .undefined
  | .undefined => .undefined
  | _ => fieldD v k

mutual

/-- JavaScript `String(v)` coercion, as used by `new Error(x).message` and
`RegExp.prototype.test`. -/
def jsToString : JsValue → String
  | .null => "null"
  | .undefined => "undefined"
  | .bool true => "true"
  | .bool false => "false"
  | .num n => toString n
  | .str s => s
  | .arr xs => jsArrToString xs
  | .obj _ => "[object Object]"

/-- `Array.prototype.toString`: elements joined by `","`, with `null` and
`undefined` elements rendered as the empty string. -/
def jsArrToString : List JsValue → String
  | [] => ""
  | [x] => jsElemToString x
  | x :: y :: rest => jsElemToString x ++ "," ++ jsArrToString (y :: rest)

/-- Coercion of one array element inside `Array.prototype.toString`. -/
def jsElemToString : JsValue → String
  | .null => ""
  | .undefined => ""
  | v => jsToString v

end

/-- JSON whitespace (space, tab, line feed, carriage return). -/
def isJsonWs (c : Char) : Bool :=
  c = ' ' || c = '\t' || c = '\n' || c = '\r'

/-- Drop leading JSON whitespace. -/
def skipWsL : List Char → List Char
  | [] => []
  | c :: cs => if isJsonWs c then skipWsL cs else c :: cs

/-- One JSON string escape (`\u` escapes are outside the modelled inputs). -/
def escChar (c : Char) : Option Char :=
  if c = '"' then some '"'
  else if c = '\\' then some '\\'
  else if c = '/' then some '/'
  else if c = 'b' then some '\x08'
  else if c = 'f' then some '\x0c'
  else if c = 'n' then some '\n'
  else if c = 'r' then some '\r'
  else if c = 't' then some '\t'
  else none

/-- Scan a JSON string body after the opening quote; returns the decoded
characters and the input remaining after the closing quote. -/
def scanStringBody : List Char → Option (List Char × List Char)
  | [] => none
  | '"' :: cs => some ([], cs)
  | '\\' :: c :: cs =>
    match escChar c, scanStringBody cs with
    | some e, some (acc, rest) => some (e :: acc, rest)
    | _, _ => none
  | ['\\'] => none
  | c :: cs =>
    if c.toNat < 32 then none
    else match scanStringBody cs with
      | some (acc, rest) => some (c :: acc, rest)
      | none => none

/-- Scan a maximal run of decimal digits. -/
def scanDigits : List Char → (List Char × List Char)
  | [] => ([], [])
  | c :: cs =>
    if c.isDigit then
      let (ds, rest) := scanDigits cs
      (c :: ds, rest)
    else ([], c :: cs)

/-- Digits to a natural number. -/
def digitsToNat (ds : List Char) : Nat :=
  ds.foldl (fun acc c => acc * 10 + (c.toNat - 48)) 0

/-- Parse a JSON integer (optional minus sign followed by digits).
Fractional and exponent forms are outside the modelled inputs and are
rejected, surfacing as a parse failure. -/
def parseIntLit (cs : List Char) : Option (Int × List Char) :=
  match cs with
  | '-' :: rest =>
    let (ds, rest2) := scanDigits rest
    if ds.isEmpty then none else some (-(digitsToNat ds : Int), rest2)
  | _ =>
    let (ds, rest2) := scanDigits cs
    if ds.isEmpty then none else some ((digitsToNat ds : Int), rest2)

mutual

/-- Fuel-indexed JSON value parser (the fuel only bounds recursion depth;
`jsonParse` supplies enough for any input). -/
def parseVal : Nat → List Char → Option (JsValue × List Char)
  | 0, _ => none
  | fuel + 1, cs =>
    match skipWsL cs with
    | [] => none
    | '\x7b' :: rest => parseMembers fuel (skipWsL rest) []
    | '[' :: rest => parseElems fuel (skipWsL rest) []
    | '"' :: rest =>
      match scanStringBody rest with
      | some (chars, rest2) => some (.str (String.mk chars), rest2)
      | none => none
    | 't' :: 'r' :: 'u' :: 'e' :: rest => some (.bool true, rest)
    | 'f' :: 'a' :: 'l' :: 's' :: 'e' :: rest => some (.bool false, rest)
    | 'n' :: 'u' :: 'l' :: 'l' :: rest => some (.null, rest)
    | cs2 =>
      match parseIntLit cs2 with
      | some (n, rest) => some (.num n, rest)
      | none => none

/-- Parse object members, positioned either at `\x7d` or at the first key. -/
def parseMembers (fuel : Nat) (cs : List Char) (acc : List (String × JsValue)) :
    Option (JsValue × List Char) :=
  match fuel with
  | 0 => none
  | fuel + 1 =>
    match cs with
    | '\x7d' :: rest => if acc.isEmpty then some (.obj [], rest) else none
    | '"' :: rest =>
      match scanStringBody rest with
      | some (kchars, rest2) =>
        match skipWsL rest2 with
        | ':' :: rest3 =>
          match parseVal fuel rest3 with
          | some (v, rest4) =>
            let acc2 := acc ++ [(String.mk kchars, v)]
            match skipWsL rest4 with
            | ',' :: rest5 => parseMembers fuel (skipWsL rest5) acc2
            | '\x7d' :: rest5 => some (.obj acc2, rest5)
            | _ => none
          | none => none
        | _ => none
      | none => none
    | _ => none

/-- Parse array elements, positioned either at `]` or at the first element. -/
def parseElems (fuel : Nat) (cs : List Char) (acc : List JsValue) :
    Option (JsValue × List Char) :=
  match fuel with
  | 0 => none
  | fuel + 1 =>
    match cs with
    | ']' :: rest => if acc.isEmpty then some (.arr [], rest) else none
    | _ =>
      match parseVal fuel cs with
      | some (v, rest) =>
        let acc2 := acc ++ [v]
        match skipWsL rest with
        | ',' :: rest2 => parseElems fuel (skipWsL rest2) acc2
        | ']' :: rest2 => some (.arr acc2, rest2)
        | _ => none
      | none => none

end

/-- `JSON.parse`: `none` models a thrown SyntaxError. -/
def jsonParse (s : String) : Option JsValue :=
  match parseVal (8 * (s.length + 1)) s.toList with
  | some (v, rest) => if skipWsL rest = [] then some v else none
  | none => none

/-- Lowercase hex digit. -/
def hexDigit (n : Nat) : Char :=
  if n < 10 then Char.ofNat (48 + n) else Char.ofNat (87 + n)

/-- JSON string escaping of one character, per `JSON.stringify`. -/
def jsonEscapeChar (c : Char) : List Char :=
  if c = '"' then ['\\', '"']
  else if c = '\\' then ['\\', '\\']
  else if c = '\n' then ['\\', 'n']
  else if c = '\r' then ['\\', 'r']
  else if c = '\t' then ['\\', 't']
  else if c = '\x08' then ['\\', 'b']
  else if c = '\x0c' then ['\\', 'f']
  else if c.toNat < 32 then
    ['\\', 'u', '0', '0', hexDigit (c.toNat / 16), hexDigit (c.toNat % 16)]
  else [c]

/-- JSON rendering of a string literal, quotes included. -/
def jsonQuote (s : String) : List Char :=
  '"' :: (s.toList.flatMap jsonEscapeChar) ++ ['"']

mutual

/-- `JSON.stringify` on one value; `none` models the `undefined` result for
an `undefined` argument. -/
def stringifyVal : JsValue → Option (List Char)
  | .undefined => none
  | .null => some ("null".toList)
  | .bool true => some ("true".toList)
  | .bool false => some ("false".toList)
  | .num n => some ((toString n).toList)
  | .str s => some (jsonQuote s)
  | .arr xs => some ('[' :: stringifyElems xs ++ [']'])
  | .obj fs => some ('\x7b' :: stringifyFields fs ++ ['\x7d'])

/-- Array elements for `JSON.stringify` (an `undefined` element prints as
`null`), comma separated. -/
def stringifyElems : List JsValue → List Char
  | [] => []
  | [x] => (stringifyVal x).getD ("null".toList)
  | x :: y :: rest =>
    (stringifyVal x).getD ("null".toList) ++ ',' :: stringifyElems (y :: rest)

/-- Object fields for `JSON.stringify`: fields whose value stringifies to
`undefined` are dropped; the rest print as `"key":value`, comma separated. -/
def stringifyFields : List (String × JsValue) → List Char
  | [] => []
  | (k, v) :: rest =>
    match stringifyVal v with
    | none => stringifyFields rest
    | some vs =>
      let entry := jsonQuote k ++ ':' :: vs
      match stringifyFields rest with
      | [] => entry
      | tail => entry ++ ',' :: tail

end

/-- `JSON.stringify` returning a string (callers in the modelled code only
stringify object literals, which never yield `undefined`). -/
def jsonStringify (v : JsValue) : String :=
  String.mk ((stringifyVal v).getD [])

/-! ### Base64: `btoa`, `atob`, and the base64url substitution -/

/-- The standard base64 alphabet, indexed 0–63. -/
def b64Alphabet : List Char :=
  ['A', 'B', 'C', 'D', 'E', 'F', 'G', 'H', 'I', 'J', 'K', 'L', 'M',
   'N', 'O', 'P', 'Q', 'R', 'S', 'T', 'U', 'V', 'W', 'X', 'Y', 'Z',
   'a', 'b', 'c', 'd', 'e', 'f', 'g', 'h', 'i', 'j', 'k', 'l', 'm',
   'n', 'o', 'p', 'q', 'r', 's', 't', 'u', 'v', 'w', 'x', 'y', 'z',
   '0', '1', '2', '3', '4', '5', '6', '7', '8', '9', '+', '/']

/-- Character for a sextet value. -/
def b64Char (n : Nat) : Char := b64Alphabet.getD n 'A'

/-- Auxiliary index scan for `sextet`. -/
def sextetAux : List Char → Nat → Char → Option Nat
  | [], _, _ => none
  | a :: as, i, c => if a = c then some i else sextetAux as (i + 1) c

/-- Sextet value of an alphabet character (`none` for a character outside
the standard alphabet, which makes `atob` throw). -/
def sextet (c : Char) : Option Nat := sextetAux b64Alphabet 0 c

/-- Base64 encoding of a byte list with the `=` padding already stripped —
the composite `btoa(x).replace(/=/g, '')` used by `generateJWT`. -/
def b64NoPad : List Nat → List Char
  | [] => []
  | [b1] => [b64Char (b1 / 4), b64Char (b1 % 4 * 16)]
  | [b1, b2] =>
    [b64Char (b1 / 4), b64Char (b1 % 4 * 16 + b2 / 16), b64Char (b2 % 16 * 4)]
  | b1 :: b2 :: b3 :: rest =>
    b64Char (b1 / 4) :: b64Char (b1 % 4 * 16 + b2 / 16) ::
    b64Char (b2 % 16 * 4 + b3 / 64) :: b64Char (b3 % 64) :: b64NoPad rest

/-- The `.replace(/[+/]/g, c => c === '+' ? '-' : '_')` substitution on one
character. -/
def urlChar (c : Char) : Char :=
  if c = '+' then '-' else if c = '/' then '_' else c

/-- The base64url substitution on a whole encoded segment. -/
def urlize (l : List Char) : List Char := l.map urlChar

/-- `btoa`: fails (throws `InvalidCharacterError`) when the input string has
a char code above 255; otherwise encodes the char codes (padding is dropped
here because every caller strips it immediately). -/
def btoaJs (s : List Char) : Option (List Char) :=
  if s.all (fun c => c.toNat < 256) then some (b64NoPad (s.map Char.toNat))
  else none

/-- ASCII whitespace removed by the forgiving base64 decode. -/
def isAsciiWs (c : Char) : Bool :=
  c = ' ' || c = '\t' || c = '\n' || c = '\x0c' || c = '\r'

/-- Strip at most two leading `=` of a reversed segment. -/
def stripEqRev (r : List Char) : List Char :=
  match r with
  | [] => []
  | [c1] => if c1 = '=' then [] else [c1]
  | c1 :: c2 :: t =>
    if c1 = '=' then (if c2 = '=' then t else c2 :: t) else r

/-- Strip at most two trailing `=`. -/
def dropTrailingEq (l : List Char) : List Char := (stripEqRev l.reverse).reverse

/-- Core of the forgiving base64 decode: groups of four sextets, with a
trailing group of two or three; a trailing single character (length ≡ 1
mod 4) or a character outside the alphabet is an error. -/
def b64DecodeRaw : List Char → Option (List Nat)
  | [] => some []
  | [_] => none
  | [c1, c2] =>
    match sextet c1, sextet c2 with
    | some s1, some s2 => some [s1 * 4 + s2 / 16]
    | _, _ => none
  | [c1, c2, c3] =>
    match sextet c1, sextet c2, sextet c3 with
    | some s1, some s2, some s3 => some [s1 * 4 + s2 / 16, s2 % 16 * 16 + s3 / 4]
    | _, _, _ => none
  | c1 :: c2 :: c3 :: c4 :: rest =>
    match sextet c1, sextet c2, sextet c3, sextet c4, b64DecodeRaw rest with
    | some s1, some s2, some s3, some s4, some bs =>
      some ([s1 * 4 + s2 / 16, s2 % 16 * 16 + s3 / 4, s3 % 4 * 64 + s4] ++ bs)
    | _, _, _, _, _ => none

/-- `atob` (WHATWG forgiving base64 decode): strip ASCII whitespace, strip
up to two trailing `=` when the length is a multiple of four, then decode;
`none` models a thrown `InvalidCharacterError`. -/
def atobJs (s : List Char) : Option (List Nat) :=
  let t := s.filter (fun c => !isAsciiWs c)
  let t2 := if t.length % 4 = 0 then dropTrailingEq t else t
  b64DecodeRaw t2

/-- `String.prototype.split('.')` on a char list. -/
def splitOnDot : List Char → List (List Char)
  | [] => [[]]
  | c :: rest =>
    if c = '.' then [] :: splitOnDot rest
    else
      match splitOnDot rest with
      | seg :: segs => (c :: seg) :: segs
      | [] => [[c]]

/-! ### TokenCodec: `generateJWT` and the client-side payload decode -/

/-- `JSON.stringify` of the fixed header object
`\x7b alg: 'HS256', typ: 'JWT' \x7d`. -/
def headerChars : List Char :=
  (jsonStringify (.obj [("alg", .str "HS256"), ("typ", .str "JWT")])).toList

/-- `generateJWT(payload, secret)` from functions/api/auth/register.
`payloadJson` is the char sequence `JSON.stringify(payload)`; `sign`
abstracts `crypto.subtle.sign('HMAC', key, message)` (an opaque platform
primitive taking the secret and the signed message); its output passes
through `new Uint8Array`, hence the `% 256`.  `none` models a thrown
`InvalidCharacterError` from `btoa` on a non-Latin-1 serialization. -/
def generateJWT (sign : List Char → List Char → List Nat)
    (payloadJson : List Char) (secret : List Char) : Option (List Char) :=
  match btoaJs headerChars, btoaJs payloadJson with
  | some hb, some pb =>
    let headerB64 := urlize hb
    let payloadB64 := urlize pb
    let message := headerB64 ++ '.' :: payloadB64
    let sigBytes := (sign secret message).map (· % 256)
    let sigB64 := urlize (b64NoPad sigBytes)
    some (message ++ '.' :: sigB64)
  | _, _ => none

/-- The client-side decode of a stored token's payload segment:
`JSON.parse(atob(storedToken.split('.')[1]))` (AuthContext line 52).
`none` models any exception along the way (including `atob('undefined')`
when the token has no second segment). -/
def decodeSegment (seg : List Char) : Option JsValue :=
  match atobJs seg with
  | none => none
  | some bytes => jsonParse (String.mk (bytes.map Char.ofNat))

/-- The split-then-decode composite: `split('.')[1]` selects the second
segment when there is one (otherwise `atob('undefined')` throws). -/
def decodeStoredToken (tokenStr : String) : Option JsValue :=
  match splitOnDot tokenStr.toList with
  | _ :: seg :: _ => decodeSegment seg
  | _ => none

/-! ### AuthSessionManager: the client auth context -/

/-- The client auth state owned by `AuthProvider`: the persisted
`localStorage['auth']` slot plus the in-memory `token`, `user`,
`isAuthenticated` fields. -/
structure AuthState where
  storage : Option String
  token : JsValue
  user : JsValue
  isAuthenticated : Bool
  deriving Repr

/-- The state after clearing: storage removed, in-memory fields reset. -/
def clearedState : AuthState := ⟨none, .null, .null, false⟩

/-- Whitespace class of the regex `\s` and of numeric-string trimming (the
ASCII part plus no-break space; the exotic Unicode spaces never appear in
the modelled inputs). -/
def isRegexWsChar (c : Char) : Bool :=
  c = ' ' || c = '\t' || c = '\n' || c = '\r' || c = '\x0b' || c = '\x0c' ||
  c = '\xa0'

/-- JavaScript numeric coercion as used in `exp * 1000`; `none` models
`NaN`.  (Non-integral numeric strings and array coercions cannot arise
from the modelled token payloads and map to `NaN`.) -/
def jsToNumber : JsValue → Option Int
  | .num n => some n
  | .null => some 0
  | .bool true => some 1
  | .bool false => some 0
  | .undefined => none
  | .str s =>
    let t := ((s.toList.dropWhile isRegexWsChar).reverse.dropWhile
      isRegexWsChar).reverse
    if t.isEmpty then some 0
    else match parseIntLit t with
      | some (n, []) => some n
      | _ => none
  | .arr _ => none
  | .obj _ => none

/-- The session-restore expiry check `tokenPayload.exp * 1000 < Date.now()`:
a `NaN` product compares false. -/
def tokenExpiredCheck (payload : JsValue) (now : Int) : Bool :=
  match jsToNumber (fieldD payload "exp") with
  | some n => decide (n * 1000 < now)
  | none => false

/-- The inner try of `initializeAuth` once `storedToken` is a string:
decode the payload segment (any exception clears the slot); a `null`
payload makes `tokenPayload.exp` throw (clears); an expired payload clears;
otherwise the session is adopted. -/
def restoreFromToken (raw ts : String) (usr : JsValue) (now : Int) : AuthState :=
  match decodeStoredToken ts with
  | none => clearedState
  | some payload =>
    if payload.isNull then clearedState
    else if tokenExpiredCheck payload now then clearedState
    else ⟨some raw, .str ts, usr, true⟩

/-- The token acceptance test of the restore path: the payload segment
decodes, is not `null`, and is not expired. -/
def tokenOk (ts : String) (now : Int) : Bool :=
  match decodeStoredToken ts with
  | none => false
  | some payload => !payload.isNull && !tokenExpiredCheck payload now

/-- `initializeAuth` (AuthContext lines 31–75): restore the session from the
persisted slot.  `slot` is `localStorage.getItem('auth')`; `now` is
`Date.now()` in milliseconds.  Every thrown error is swallowed into the
clearing branches, exactly as the nested try/catch does. -/
def initializeAuth (slot : Option String) (now : Int) : AuthState :=
  match slot with
  | none => clearedState
  | some raw =>
    if raw = "" || raw = "undefined" || raw = "null" then clearedState
    else
      match jsonParse raw with
      | none => clearedState
      | some parsed =>
        if !(truthy parsed && typeofObject parsed) then clearedState
        else
          let storedUser := fieldD parsed "user"
          let storedToken := fieldD parsed "token"
          if truthy storedToken && truthy storedUser then
            match storedToken with
            | .str ts => restoreFromToken raw ts storedUser now
            | _ => clearedState
          else ⟨some raw, .null, .null, false⟩

/-- Outcome of one `fetch` round trip as the client observes it. -/
inductive FetchOutcome where
  | threw (msg : String)
  | response (ok : Bool) (json : Except String JsValue)

/-- The structured result `login`/`register` return to the UI. -/
structure ClientResult where
  success : Bool
  user : JsValue
  error : Option String
  deriving Repr

/-- `data.error?.message || data.error || fallback`, then coerced through
`new Error(...).message`. -/
def errMessageOf (data : JsValue) (fallback : String) : String :=
  let m := optChain (fieldD data "error") "message"
  if truthy m then jsToString m
  else if truthy (fieldD data "error") then jsToString (fieldD data "error")
  else fallback

/-- `login(email, password)` (AuthContext lines 80–117).  The request body
never affects the client state transition, so only the fetch outcome is
modelled.  The deferred `checkMigrationNeeded` call touches only the
migration side channel. -/
def login (st : AuthState) (o : FetchOutcome) : AuthState × ClientResult :=
  match o with
  | .threw msg => (st, ⟨false, .undefined, some msg⟩)
  | .response ok json =>
    match json with
    | .error msg => (st, ⟨false, .undefined, some msg⟩)
    | .ok data =>
      if !ok then (st, ⟨false, .undefined, some (errMessageOf data "Login failed")⟩)
      else
        let tok := fieldD data "token"
        let usr := fieldD data "user"
        let stored := jsonStringify (.obj [("token", tok), ("user", usr)])
        (⟨some stored, tok, usr, true⟩, ⟨true, usr, none⟩)

/-- `register(firstName, email, password)` (AuthContext lines 119–165):
identical state behaviour to `login` up to the fallback message. -/
def registerClient (st : AuthState) (o : FetchOutcome) : AuthState × ClientResult :=
  match o with
  | .threw msg => (st, ⟨false, .undefined, some msg⟩)
  | .response ok json =>
    match json with
    | .error msg => (st, ⟨false, .undefined, some msg⟩)
    | .ok data =>
      if !ok then (st, ⟨false, .undefined, some (errMessageOf data "Registration failed")⟩)
      else
        let tok := fieldD data "token"
        let usr := fieldD data "user"
        let stored := jsonStringify (.obj [("token", tok), ("user", usr)])
        (⟨some stored, tok, usr, true⟩, ⟨true, usr, none⟩)

/-- `logout` (AuthContext lines 167–189): the `finally` block clears the
slot and the in-memory state whatever the network call did, so the result
does not depend on the fetch outcome. -/
def logout (_st : AuthState) (_o : FetchOutcome) : AuthState := clearedState

/-- The spread `\x7b ...currentAuth, token: data.token \x7d`: fields of the
spread object in order (an overridden key keeps its position); arrays and
strings spread to index keys; other primitives contribute nothing. -/
def spreadFields : JsValue → List (String × JsValue)
  | .obj fs => fs
  | .arr xs => (xs.enum.map fun p => (toString p.1, p.2))
  | .str s => (s.toList.enum.map fun p => (toString p.1, JsValue.str (String.mk [p.2])))
  | _ => []

/-- Overwrite-or-append of one field, per object-spread semantics. -/
def setField (fs : List (String × JsValue)) (k : String) (v : JsValue) :
    List (String × JsValue) :=
  if fs.any (fun p => p.1 = k) then fs.map (fun p => if p.1 = k then (k, v) else p)
  else fs ++ [(k, v)]

/-- `refreshToken` (AuthContext lines 191–223).  `o` is the refresh fetch
outcome; `lo` the logout fetch outcome used when the catch block runs. -/
def refreshToken (st : AuthState) (o : FetchOutcome) (lo : FetchOutcome) :
    AuthState × Bool :=
  if !truthy st.token then (st, false)
  else
    match o with
    | .threw _ => (logout st lo, false)
    | .response ok json =>
      if !ok then (logout st lo, false)
      else
        match json with
        | .error _ => (logout st lo, false)
        | .ok data =>
          let rawCur := match st.storage with
            | none => "\x7b\x7d"
            | some r => if r = "" then "\x7b\x7d" else r
          match jsonParse rawCur with
          | none => (logout st lo, false)
          | some cur =>
            match fieldAccess data "token" with
            | none => (logout st lo, false)
            | some tok =>
              let merged := JsValue.obj (setField (spreadFields cur) "token" tok)
              (⟨some (jsonStringify merged), tok, st.user, st.isAuthenticated⟩, true)

/-! ### The migration side channel: `runMigration` -/

/-- The `progress` record inside `migrationStatus`. -/
structure MigProgress where
  status : String
  total : Nat
  completed : Nat
  failed : Nat
  deriving Repr, DecidableEq

/-- The `migrationStatus` React state. -/
structure MigrationStatus where
  isNeeded : Bool
  isRunning : Bool
  progress : Option MigProgress
  completed : Bool
  error : Option String
  deriving Repr, DecidableEq

/-- Outcome of `migrationService.migratePrompts()`. -/
inductive MigOutcome where
  | ok (total migrated failed : Nat)
  | threw (msg : String)

/-- Observable outcome of one `runMigration()` call: the value returned or
re-thrown, the final `migrationStatus`, and whether the progress listener
was registered / unregistered during the call. -/
structure MigRun where
  result : Except String (Nat × Nat × Nat)
  final : MigrationStatus
  listenerRegistered : Bool
  listenerRemoved : Bool

/-- `runMigration` (AuthContext lines 236–294).  `events` are the progress
payloads the listener delivered while the migration ran (they only
overwrite `progress`); `o` is how `migratePrompts()` ended. -/
def runMigration (st : MigrationStatus) (events : List MigProgress)
    (o : MigOutcome) : MigRun :=
  if st.isRunning then ⟨.error "Migration is already running", st, false, false⟩
  else
    let starting : MigProgress := ⟨"starting", 0, 0, 0⟩
    let entry : MigrationStatus :=
      { st with isRunning := true, error := none, progress := some starting }
    match o with
    | .ok t m f =>
      ⟨.ok (t, m, f),
       { entry with
          isRunning := false, completed := true, isNeeded := false,
          progress := some ⟨if f > 0 then "completed_with_errors" else "completed",
                            t, m, f⟩ },
       true, true⟩
    | .threw msg =>
      let last := events.getLastD starting
      ⟨.error msg,
       { entry with
          isRunning := false, error := some msg,
          progress := some { last with status := "failed" } },
       true, false⟩

/-! ### RegistrationService: the server register endpoint -/

/-- A row of the `users` table as the handler reads and writes it (the
`created_at`/`updated_at` columns never reach a response and are omitted). -/
structure UserRecord where
  id : String
  firstName : JsValue
  email : JsValue
  passwordHash : String

/-- Outcome of `await request.json()`: `threw` carries the error's message
and stack as the catch blocks would read them. -/
inductive ReqBody where
  | threw (msg stack : String)
  | ok (data : JsValue)

/-- An HTTP response as constructed by the handlers: status and JSON body.
(The security headers added by `SecurityHeadersManager` are opaque to every
property here.) -/
structure RegResponse where
  status : Nat
  body : JsValue
  deriving Repr

/-- The uniform error body `\x7b success:false, error:\x7b code, message \x7d \x7d`. -/
def errorBody (code msg : String) : JsValue :=
  .obj [("success", .bool false),
        ("error", .obj [("code", .str code), ("message", .str msg)])]

/-- `/^[^\s@]+@[^\s@]+\.[^\s@]+$/.test s`: exactly one `@`, a nonempty
whitespace-free local part, and after the `@` a nonempty whitespace-free
remainder containing a `.` that is neither its first nor its last
character (the two inner `[^\s@]+` groups may themselves contain dots). -/
def emailRegexTest (s : String) : Bool :=
  match s.toList.splitOn '@' with
  | [a, r] =>
    !a.isEmpty && a.all (fun c => !isRegexWsChar c) &&
    !r.isEmpty && r.all (fun c => !isRegexWsChar c) &&
    ((r.drop 1).dropLast.contains '.')
  | _ => false

/-- SQL equality of a stored `TEXT` email column against a bound value (a
non-string bound value never equals a stored text). -/
def jsStrEq (a b : JsValue) : Bool :=
  match a, b with
  | .str x, .str y => x = y
  | _, _ => false

/-- `SELECT id FROM users WHERE email = ?`. -/
def findByEmail (store : List UserRecord) (em : JsValue) : Option UserRecord :=
  store.find? (fun r => jsStrEq r.email em)

/-- Number of records holding the given email. -/
def emailCount (store : List UserRecord) (e : String) : Nat :=
  store.countP (fun r => jsStrEq r.email (.str e))

/-- The token payload object the register handler signs.  The source
evaluates `Math.floor(Date.now() / 1000)` twice — once for `iat` and once
for `exp` — so the two clock samples `now1` and `now2` (milliseconds) are
distinct parameters; they differ when the second read crosses a second
boundary. -/
def regTokenPayload (userId : String) (em fn : JsValue) (now1 now2 : Nat) :
    JsValue :=
  .obj [("userId", .str userId), ("email", em), ("firstName", fn),
        ("iat", .num ((now1 / 1000 : Nat) : Int)),
        ("exp", .num (((now2 / 1000 : Nat) : Int) + 86400))]

namespace RegisterApi

/-- `onRequestPost` of functions/api/auth/register (the real handler).
External effects become parameters: `now1` and `now2` are the two
`Date.now()` reads made while building the token payload (the `iat` and
`exp` lines each call `Date.now()`), `freshId` the `generateUUID()` draw,
`hashHex` the SHA-256 hex digest of `hashPassword`, `sign` the HMAC
primitive of `generateJWT`.  Returns the response and the resulting
`users` table. -/
def onRequestPost (jwtSecret db : JsValue) (store : List UserRecord)
    (body : ReqBody) (now1 now2 : Nat) (freshId : String)
    (hashHex : String → String) (sign : List Char → List Char → List Nat) :
    RegResponse × List UserRecord :=
  if !truthy jwtSecret then
    (⟨503, errorBody "CONFIG_ERROR" "JWT configuration missing"⟩, store)
  else if !truthy db then
    (⟨503, errorBody "CONFIG_ERROR" "Database configuration missing"⟩, store)
  else
    match body with
    | .threw _ _ => (⟨500, errorBody "INTERNAL_ERROR" "Registration failed"⟩, store)
    | .ok data =>
      match fieldAccess data "firstName", fieldAccess data "email",
            fieldAccess data "password" with
      | some fn, some em, some pw =>
        if !(truthy fn && truthy em && truthy pw) then
          (⟨400, errorBody "VALIDATION_ERROR"
              "Missing required fields: firstName, email, password"⟩, store)
        else if !emailRegexTest (jsToString em) then
          (⟨400, errorBody "VALIDATION_ERROR" "Invalid email format"⟩, store)
        else
          match findByEmail store em with
          | some _ =>
            (⟨409, errorBody "USER_EXISTS" "User with this email already exists"⟩,
             store)
          | none =>
            let userId := freshId
            let hashed := hashHex (jsToString pw)
            let store2 := store ++ [⟨userId, fn, em, hashed⟩]
            let payload : JsValue := regTokenPayload userId em fn now1 now2
            match generateJWT sign (jsonStringify payload).toList
                    (jsToString jwtSecret).toList with
            | some tok =>
              (⟨201, .obj [("success", .bool true),
                           ("user", .obj [("id", .str userId), ("firstName", fn),
                                          ("email", em)]),
                           ("token", .str (String.mk tok))]⟩, store2)
            | none =>
              (⟨500, errorBody "INTERNAL_ERROR" "Registration failed"⟩, store2)
      | _, _, _ => (⟨500, errorBody "INTERNAL_ERROR" "Registration failed"⟩, store)

end RegisterApi

/-- `typeof v`. -/
def jsTypeof : JsValue → String
  | .undefined => "undefined"
  | .null => "object"
  | .bool _ => "boolean"
  | .num _ => "number"
  | .str _ => "string"
  | .arr _ => "object"
  | .obj _ => "object"

namespace DebugApi

/-- `onRequestPost` of the minimal debugging registration endpoint.  `env`
lists the worker bindings in order (`Object.keys(env)` is its key list);
`dbTest` is the `SELECT 1` probe; `errInfo` carries message and stack of
whatever error the outer catch receives. -/
def onRequestPost (env : List (String × JsValue)) (dbTest : Except String Unit)
    (body : ReqBody) (errInfo : String × String) : RegResponse :=
  let envObj := JsValue.obj env
  let jwt := fieldD envObj "JWT_SECRET"
  if !truthy jwt then
    ⟨500, .obj [("success", .bool false),
       ("error", .obj
         [("message", .str "Missing JWT_SECRET"),
          ("availableKeys", .arr (env.map (fun p => .str p.1))),
          ("debug", .obj [("hasJWTSecret", .bool (truthy jwt)),
                          ("jwtSecretType", .str (jsTypeof jwt))])])]⟩
  else if !truthy (fieldD envObj "DB") then
    ⟨500, .obj [("success", .bool false),
       ("error", .obj [("message", .str "Missing DB")])]⟩
  else
    match dbTest with
    | .error dmsg =>
      ⟨500, .obj [("success", .bool false),
         ("error", .obj [("message", .str "DB connection failed"),
                         ("details", .str dmsg)])]⟩
    | .ok _ =>
      match body with
      | .threw msg stack =>
        ⟨500, .obj [("success", .bool false),
           ("error", .obj [("message", .str "Simple registration failed"),
                           ("details", .str msg), ("stack", .str stack)])]⟩
      | .ok data =>
        match fieldAccess data "firstName", fieldAccess data "email",
              fieldAccess data "password" with
        | some fn, some em, some pw =>
          if !(truthy fn && truthy em && truthy pw) then
            ⟨400, .obj [("success", .bool false),
               ("error", .obj [("message", .str "Missing required fields")])]⟩
          else
            ⟨200, .obj [("success", .bool true),
               ("message", .str "Registration endpoint is working!"),
               ("data", .obj
                 [("firstName", fn), ("email", em),
                  ("environmentCheck", .obj
                    [("hasJWT", .bool (truthy jwt)),
                     ("hasDB", .bool (truthy (fieldD envObj "DB"))),
                     ("hasPromptCache",
                      .bool (truthy (fieldD envObj "PROMPT_CACHE")))])])]⟩
        | _, _, _ =>
          ⟨500, .obj [("success", .bool false),
             ("error", .obj [("message", .str "Simple registration failed"),
                             ("details", .str errInfo.1),
                             ("stack", .str errInfo.2)])]⟩

end DebugApi

namespace ApiService

/-- `ApiService.getToken` (src/services/api.js lines 10–20). -/
def getToken (slot : Option String) : JsValue :=
  match slot with
  | none => .null
  | some raw =>
    if raw = "" then .null
    else
      match jsonParse raw with
      | none => .null
      | some parsed =>
        if !(truthy parsed && typeofObject parsed) then .null
        else if truthy (fieldD parsed "token") then fieldD parsed "token"
        else .null

end ApiService

/-! ### Claim-side predicates -/

/-- A persisted slot constitutes a valid `\x7b token, user \x7d` session at
time `now`: present, not a sentinel string, JSON for a truthy object with
truthy `token` and `user`, the token a string whose payload segment decodes
to a non-null value that is not expired. -/
def validSessionSlot (slot : Option String) (now : Int) : Bool :=
  match slot with
  | none => false
  | some raw =>
    if raw = "" || raw = "undefined" || raw = "null" then false
    else
      match jsonParse raw with
      | none => false
      | some parsed =>
        truthy parsed && typeofObject parsed &&
        truthy (fieldD parsed "token") && truthy (fieldD parsed "user") &&
        (match fieldD parsed "token" with
         | .str ts => tokenOk ts now
         | _ => false)

/-- The slot parses to a truthy object whose `token`/`user` are not both
truthy — the one malformed shape `initializeAuth` leaves in storage. -/
def objWithoutCreds (slot : Option String) : Bool :=
  match slot with
  | none => false
  | some raw =>
    if raw = "" || raw = "undefined" || raw = "null" then false
    else
      match jsonParse raw with
      | none => false
      | some parsed =>
        truthy parsed && typeofObject parsed &&
        !(truthy (fieldD parsed "token") && truthy (fieldD parsed "user"))

/-- A fetch outcome the client code treats as failure: a rejected fetch, a
body that fails to parse, or a non-OK status. -/
def fetchFailed : FetchOutcome → Bool
  | .threw _ => true
  | .response _ (.error _) => true
  | .response ok (.ok _) => !ok

mutual

/-- All string leaves occurring in a JSON value. -/
def stringLeaves : JsValue → List String
  | .str s => [s]
  | .arr xs => stringLeavesArr xs
  | .obj fs => stringLeavesObj fs
  | _ => []

/-- String leaves of an array's elements. -/
def stringLeavesArr : List JsValue → List String
  | [] => []
  | x :: rest => stringLeaves x ++ stringLeavesArr rest

/-- String leaves of an object's field values. -/
def stringLeavesObj : List (String × JsValue) → List String
  | [] => []
  | (_, v) :: rest => stringLeaves v ++ stringLeavesObj rest

end

/-- Does the string occur as a value anywhere in the JSON value? -/
def occursIn (x : String) (v : JsValue) : Bool :=
  (stringLeaves v).contains x

/-- A persisted slot whose token payload is `\x7b"exp":1\x7d` (so
`exp * 1000 = 1000`), used to probe the expiry boundary. -/
def boundarySlot : String :=
  "\x7b\"token\":\"h.eyJleHAiOjF9.s\",\"user\":\x7b\"id\":1\x7d\x7d"


/-! ## Supporting lemmas -/

theorem toList_mk (l : List Char) : (String.mk l).toList = l := rfl

theorem sextet_b64Char : ∀ n < 64, sextet (b64Char n) = some n := by decide

theorem b64Char_mem : ∀ n, b64Char n ∈ b64Alphabet := by
  intro n
  unfold b64Char List.getD
  cases h : b64Alphabet.get? n with
  | none => simpa [h] using (by decide : 'A' ∈ b64Alphabet)
  | some c => simpa using List.get?_mem h

theorem mem_b64NoPad (bs : List Nat) : ∀ c ∈ b64NoPad bs, c ∈ b64Alphabet := by
  induction bs using Promptomatik.b64NoPad.induct with
  | case1 => intro c hc; simp [b64NoPad] at hc
  | case2 b1 =>
    intro c hc
    simp only [b64NoPad, List.mem_cons, List.mem_singleton] at hc
    rcases hc with rfl | rfl | h
    · exact b64Char_mem _
    · exact b64Char_mem _
    · simp at h
  | case3 b1 b2 =>
    intro c hc
    simp only [b64NoPad, List.mem_cons] at hc
    rcases hc with rfl | rfl | rfl | h
    · exact b64Char_mem _
    · exact b64Char_mem _
    · exact b64Char_mem _
    · simp at h
  | case4 b1 b2 b3 rest ih =>
    intro c hc
    simp only [b64NoPad, List.mem_cons] at hc
    rcases hc with rfl | rfl | rfl | rfl | h
    · exact b64Char_mem _
    · exact b64Char_mem _
    · exact b64Char_mem _
    · exact b64Char_mem _
    · exact ih c h

theorem b64DecodeRaw_b64NoPad (bs : List Nat) (h : ∀ b ∈ bs, b < 256) :
    b64DecodeRaw (b64NoPad bs) = some bs := by
  induction bs using Promptomatik.b64NoPad.induct with
  | case1 => rfl
  | case2 b1 =>
    have h1 : b1 < 256 := h b1 (by simp)
    simp only [b64NoPad, b64DecodeRaw,
      sextet_b64Char _ (by omega : b1 / 4 < 64),
      sextet_b64Char _ (by omega : b1 % 4 * 16 < 64)]
    congr 1
    congr 1
    omega
  | case3 b1 b2 =>
    have h1 : b1 < 256 := h b1 (by simp)
    have h2 : b2 < 256 := h b2 (by simp)
    simp only [b64NoPad, b64DecodeRaw,
      sextet_b64Char _ (by omega : b1 / 4 < 64),
      sextet_b64Char _ (by omega : b1 % 4 * 16 + b2 / 16 < 64),
      sextet_b64Char _ (by omega : b2 % 16 * 4 < 64)]
    congr 1
    congr 1
    · omega
    · congr 1
      omega
  | case4 b1 b2 b3 rest ih =>
    have h1 : b1 < 256 := h b1 (by simp)
    have h2 : b2 < 256 := h b2 (by simp)
    have h3 : b3 < 256 := h b3 (by simp)
    have hrest : ∀ b ∈ rest, b < 256 := fun b hb => h b (by simp [hb])
    simp only [b64NoPad, b64DecodeRaw,
      sextet_b64Char _ (by omega : b1 / 4 < 64),
      sextet_b64Char _ (by omega : b1 % 4 * 16 + b2 / 16 < 64),
      sextet_b64Char _ (by omega : b2 % 16 * 4 + b3 / 64 < 64),
      sextet_b64Char _ (by omega : b3 % 64 < 64),
      ih hrest]
    congr 1
    have e1 : b1 / 4 * 4 + (b1 % 4 * 16 + b2 / 16) / 16 = b1 := by omega
    have e2 : (b1 % 4 * 16 + b2 / 16) % 16 * 16 + (b2 % 16 * 4 + b3 / 64) / 4 = b2 := by
      omega
    have e3 : (b2 % 16 * 4 + b3 / 64) % 4 * 64 + b3 % 64 = b3 := by omega
    rw [e1, e2, e3]
    simp

theorem alphabet_char_props : ∀ c ∈ b64Alphabet, isAsciiWs c = false ∧ c ≠ '=' := by
  decide

theorem urlChar_ne_dot : ∀ c ∈ b64Alphabet, urlChar c ≠ '.' := by decide

theorem stripEqRev_no_eq (r : List Char) (h : '=' ∉ r) : stripEqRev r = r := by
  rcases r with _ | ⟨c1, _ | ⟨c2, t⟩⟩
  · rfl
  · have h1 : ¬c1 = '=' := fun e => h (by simp [e])
    simp [stripEqRev, h1]
  · have h1 : ¬c1 = '=' := fun e => h (by simp [e])
    simp [stripEqRev, h1]

theorem dropTrailingEq_no_eq (l : List Char) (h : '=' ∉ l) : dropTrailingEq l = l := by
  unfold dropTrailingEq
  rw [stripEqRev_no_eq _ (fun hc => h (List.mem_reverse.mp hc))]
  exact List.reverse_reverse l

theorem atobJs_b64NoPad (bs : List Nat) (h : ∀ b ∈ bs, b < 256) :
    atobJs (b64NoPad bs) = some bs := by
  have hfil : (b64NoPad bs).filter (fun c => !isAsciiWs c) = b64NoPad bs :=
    List.filter_eq_self.mpr (fun c hc => by
      have := (alphabet_char_props c (mem_b64NoPad bs c hc)).1
      simp [this])
  have hno : '=' ∉ b64NoPad bs := fun hc =>
    (alphabet_char_props _ (mem_b64NoPad bs _ hc)).2 rfl
  simp only [atobJs, hfil]
  by_cases hl : (b64NoPad bs).length % 4 = 0
  · rw [if_pos hl, dropTrailingEq_no_eq _ hno]
    exact b64DecodeRaw_b64NoPad bs h
  · rw [if_neg hl]
    exact b64DecodeRaw_b64NoPad bs h

theorem splitOnDot_no_dot (l : List Char) (h : '.' ∉ l) : splitOnDot l = [l] := by
  induction l with
  | nil => rfl
  | cons c rest ih =>
    have hc : ¬c = '.' := fun e => h (by simp [e])
    have hr : '.' ∉ rest := fun hm => h (by simp [hm])
    simp [splitOnDot, hc, ih hr]

theorem splitOnDot_cons_append (a rest : List Char) (h : '.' ∉ a) :
    splitOnDot (a ++ '.' :: rest) = a :: splitOnDot rest := by
  induction a with
  | nil => simp [splitOnDot]
  | cons c t ih =>
    have hc : ¬c = '.' := fun e => h (by simp [e])
    have ht : '.' ∉ t := fun hm => h (by simp [hm])
    simp [splitOnDot, hc, ih ht]

theorem urlize_eq_self (l : List Char) (h1 : '+' ∉ l) (h2 : '/' ∉ l) :
    urlize l = l := by
  induction l with
  | nil => rfl
  | cons c t ih =>
    have hc1 : ¬c = '+' := fun e => h1 (by simp [e])
    have hc2 : ¬c = '/' := fun e => h2 (by simp [e])
    have ht1 : '+' ∉ t := fun hm => h1 (by simp [hm])
    have ht2 : '/' ∉ t := fun hm => h2 (by simp [hm])
    simp [urlize, urlChar, hc1, hc2]
    simpa [urlize] using ih ht1 ht2

theorem urlize_b64_no_dot (bs : List Nat) : '.' ∉ urlize (b64NoPad bs) := by
  intro hmem
  simp only [urlize, List.mem_map] at hmem
  obtain ⟨c, hc, he⟩ := hmem
  exact urlChar_ne_dot c (mem_b64NoPad bs c hc) he

/-- The central round-trip fact: when `generateJWT` succeeds and the
payload's base64 encoding avoids `+` and `/` (so the base64url substitution
is the identity on the middle segment), the client-side decode of the
produced token parses exactly the original payload serialization. -/
theorem decodeStoredToken_generateJWT
    (sign : List Char → List Char → List Nat) (p secret tok : List Char)
    (htok : generateJWT sign p secret = some tok)
    (hplus : '+' ∉ b64NoPad (p.map Char.toNat))
    (hslash : '/' ∉ b64NoPad (p.map Char.toNat)) :
    decodeStoredToken (String.mk tok) = jsonParse (String.mk p) := by
  have hh : btoaJs headerChars = some (b64NoPad (headerChars.map Char.toNat)) := by
    rfl
  rw [generateJWT, hh] at htok
  cases hbp : btoaJs p with
  | none => rw [hbp] at htok; simp at htok
  | some pcs =>
    rw [hbp] at htok
    simp only [] at htok
    have hall : ∀ c ∈ p, c.toNat < 256 := by
      by_contra hcon
      push_neg at hcon
      have : btoaJs p = none := by
        unfold btoaJs
        rw [if_neg]
        simp only [List.all_eq_true, not_forall]
        obtain ⟨c, hc, hn⟩ := hcon
        exact ⟨c, hc, by simpa using hn⟩
      rw [this] at hbp
      exact Option.noConfusion hbp
    have hpcs : pcs = b64NoPad (p.map Char.toNat) := by
      unfold btoaJs at hbp
      rw [if_pos (by simpa [List.all_eq_true] using hall)] at hbp
      exact (Option.some.inj hbp).symm
    subst hpcs
    have hbytes : ∀ b ∈ p.map Char.toNat, b < 256 := by
      intro b hb
      simp only [List.mem_map] at hb
      obtain ⟨c, hc, rfl⟩ := hb
      exact hall c hc
    have htok2 := Option.some.inj htok
    subst htok2
    unfold decodeStoredToken
    have hlist :
        (String.mk (urlize (b64NoPad (headerChars.map Char.toNat)) ++
          '.' :: urlize (b64NoPad (p.map Char.toNat)) ++
          '.' :: urlize (b64NoPad ((sign secret
            (urlize (b64NoPad (headerChars.map Char.toNat)) ++
             '.' :: urlize (b64NoPad (p.map Char.toNat)))).map (· % 256))))).toList =
        urlize (b64NoPad (headerChars.map Char.toNat)) ++
          '.' :: (urlize (b64NoPad (p.map Char.toNat)) ++
          '.' :: urlize (b64NoPad ((sign secret
            (urlize (b64NoPad (headerChars.map Char.toNat)) ++
             '.' :: urlize (b64NoPad (p.map Char.toNat)))).map (· % 256)))) := by
      rw [toList_mk, List.append_assoc, List.cons_append]
    rw [hlist, splitOnDot_cons_append _ _ (urlize_b64_no_dot _),
      splitOnDot_cons_append _ _ (urlize_b64_no_dot _),
      splitOnDot_no_dot _ (urlize_b64_no_dot _)]
    show decodeSegment (urlize (b64NoPad (p.map Char.toNat))) = jsonParse (String.mk p)
    rw [urlize_eq_self _ hplus hslash]
    unfold decodeSegment
    rw [atobJs_b64NoPad _ hbytes]
    have hid : (p.map Char.toNat).map Char.ofNat = p := by
      simp [List.map_map, Function.comp_def, Char.ofNat_toNat]
    exact congrArg (fun l => jsonParse (String.mk l)) hid

/-! ## Claim C1 — round trip of `decodePayload` after `generateJWT` -/

/-- Claim C1, counterexample: for the payload object `\x7b"~":1\x7d` the
token is produced (`isSome`), its JSON text parses to a real object, yet
the client-side decode of the token yields `none` instead of the payload —
the payload's base64 contains `+`, which `generateJWT` rewrites to `-` and
the client's `atob` then rejects.  So the round trip fails for this
payload, refuting the claim as stated. -/
theorem C1_roundtrip_counterexample :
    (generateJWT (fun _ _ => []) "\x7b\"~\":1\x7d".toList "secret".toList).isSome
      = true ∧
    ((generateJWT (fun _ _ => []) "\x7b\"~\":1\x7d".toList "secret".toList).bind
      (fun tok => decodeStoredToken (String.mk tok))) = none ∧
    jsonParse "\x7b\"~\":1\x7d" = some (.obj [("~", .num 1)]) :=
  ⟨rfl, rfl, rfl⟩

/-- Claim C1 (amended): whenever `generateJWT` produces a token and the
payload's base64 encoding contains neither `+` nor `/` (so the base64url
substitution leaves the middle segment in `atob`'s alphabet), the
client-side decode — split on `.`, `atob` the middle segment, `JSON.parse`
— returns exactly the JSON value of the original payload serialization. -/
theorem C1_roundtrip_amended
    (sign : List Char → List Char → List Nat) (p secret tok : List Char)
    (htok : generateJWT sign p secret = some tok)
    (hplus : '+' ∉ b64NoPad (p.map Char.toNat))
    (hslash : '/' ∉ b64NoPad (p.map Char.toNat)) :
    decodeStoredToken (String.mk tok) = jsonParse (String.mk p) :=
  decodeStoredToken_generateJWT sign p secret tok htok hplus hslash

/-- Claim C1 witness: the amended round trip at the concrete payload
`\x7b"a":1\x7d` and secret `"s"`. -/
theorem C1_roundtrip_amended_witness :
    decodeStoredToken
        (String.mk ("eyJhbGciOiJIUzI1NiIsInR5cCI6IkpXVCJ9.eyJhIjoxfQ.".toList)) =
      jsonParse (String.mk ("\x7b\"a\":1\x7d".toList)) ∧
    jsonParse "\x7b\"a\":1\x7d" = some (.obj [("a", .num 1)]) :=
  ⟨C1_roundtrip_amended (fun _ _ => []) ("\x7b\"a\":1\x7d".toList) ("s".toList)
      ("eyJhbGciOiJIUzI1NiIsInR5cCI6IkpXVCJ9.eyJhIjoxfQ.".toList)
      rfl (by decide) (by decide),
   rfl⟩

/-! ## Claim C2 — the expiry boundary in session restore -/

/-- Claim C2, counterexample: a stored session whose token payload is
`\x7b"exp":1\x7d`, restored at `now = 1000` (so `exp * 1000 = now`
exactly), is treated as VALID — `initializeAuth` authenticates and keeps
the slot — whereas the claim says a token whose expiry equals the current
time is treated as expired. -/
theorem C2_boundary_counterexample :
    tokenExpiredCheck (.obj [("exp", .num 1)]) 1000 = false ∧
    (initializeAuth (some boundarySlot) 1000).isAuthenticated = true ∧
    (initializeAuth (some boundarySlot) 1000).storage = some boundarySlot :=
  ⟨rfl, rfl, rfl⟩

/-- Claim C2 (amended): the restore expiry check is the strict comparison
`exp * 1000 < now`, so a token whose `exp * 1000` equals `now` exactly is
treated as still valid (not expired), a token with `exp * 1000 < now` is
expired, and a token expiring one second after `now` is valid. -/
theorem C2_expiry_boundary (e now : Int) :
    (tokenExpiredCheck (JsValue.obj [("exp", .num e)]) now = true ↔
      e * 1000 < now) ∧
    (e * 1000 = now → tokenExpiredCheck (JsValue.obj [("exp", .num e)]) now = false) ∧
    (e * 1000 = now + 1000 →
      tokenExpiredCheck (JsValue.obj [("exp", .num e)]) now = false) := by
  have hfld : fieldD (JsValue.obj [("exp", .num e)]) "exp" = .num e := rfl
  unfold tokenExpiredCheck
  rw [hfld]
  refine ⟨by simp [jsToNumber], ?_, ?_⟩
  · intro h
    simp [jsToNumber]
    omega
  · intro h
    simp [jsToNumber]
    omega

/-- Claim C2 witness: the amended boundary facts at `exp = 1`,
`now = 1000` (equality: valid) and at `exp = 0`, `now = 1000` (strictly
past: expired). -/
theorem C2_expiry_boundary_witness :
    tokenExpiredCheck (JsValue.obj [("exp", .num 1)]) 1000 = false ∧
    tokenExpiredCheck (JsValue.obj [("exp", .num 0)]) 1000 = true :=
  ⟨(C2_expiry_boundary 1 1000).2.1 (by norm_num),
   (C2_expiry_boundary 0 1000).1.mpr (by norm_num)⟩


/-! ## Claim C3 — restore on absent or malformed persisted state -/

/-- A non-`null` value is not `isNull`. -/
theorem isNull_false_of_ne (v : JsValue) (h : v ≠ .null) : v.isNull = false := by
  cases v <;> first | rfl | exact absurd rfl h

/-- `restoreFromToken` either adopts the session (exactly when `tokenOk`
accepts the token) or clears everything. -/
theorem restoreFromToken_spec (raw ts : String) (usr : JsValue) (now : Int) :
    (restoreFromToken raw ts usr now = ⟨some raw, .str ts, usr, true⟩ ∧
      tokenOk ts now = true) ∨
    (restoreFromToken raw ts usr now = clearedState ∧ tokenOk ts now = false) := by
  unfold restoreFromToken tokenOk
  cases hd : decodeStoredToken ts with
  | none => right; exact ⟨rfl, rfl⟩
  | some payload =>
    by_cases h5 : payload.isNull = true
    · right
      constructor
      · simp [h5]
      · simp [h5]
    · have h5f : payload.isNull = false := Bool.eq_false_iff.mpr h5
      by_cases h4 : tokenExpiredCheck payload now = true
      · right
        constructor
        · simp [h5f, h4]
        · simp [h5f, h4]
      · have h4f : tokenExpiredCheck payload now = false := Bool.eq_false_iff.mpr h4
        left
        constructor
        · simp [h5f, h4f]
        · simp [h5f, h4f]

/-- Claim C3, counterexample: the persisted value `\x7b"a":1\x7d` is a
well-formed JSON object but not a valid `\x7b token, user \x7d` session;
restore ends Anonymous, yet the slot is NOT cleared — the code's
`if (storedToken && storedUser)` has no else branch, so the malformed
record stays in storage, refuting the claim as stated. -/
theorem C3_restore_counterexample :
    validSessionSlot (some "\x7b\"a\":1\x7d") 0 = false ∧
    (initializeAuth (some "\x7b\"a\":1\x7d") 0).isAuthenticated = false ∧
    (initializeAuth (some "\x7b\"a\":1\x7d") 0).storage = some "\x7b\"a\":1\x7d" :=
  ⟨rfl, rfl, rfl⟩

/-- Claim C3 (amended): for every persisted value that does not constitute
a valid session, restore ends in the Anonymous state (token and user
`null`, not authenticated); the slot is cleared in every such case EXCEPT
when the stored value parses to a truthy JSON object whose `token`/`user`
are not both truthy — that one malformed shape is left in storage. -/
theorem C3_restore_malformed (slot : Option String) (now : Int)
    (h : validSessionSlot slot now = false) :
    initializeAuth slot now =
      ⟨if objWithoutCreds slot then slot else none, .null, .null, false⟩ := by
  cases slot with
  | none => rfl
  | some raw =>
    simp only [initializeAuth]
    by_cases h1 : (raw = "" || raw = "undefined" || raw = "null") = true
    · rw [if_pos h1]
      simp [clearedState, objWithoutCreds, h1]
    · rw [if_neg h1]
      cases hp : jsonParse raw with
      | none => simp [clearedState, objWithoutCreds, h1, hp]
      | some parsed =>
        by_cases h2 : (truthy parsed && typeofObject parsed) = true
        · rw [Bool.and_eq_true] at h2
          simp only [h2.1, h2.2, Bool.and_self, Bool.not_true, if_false]
          by_cases h3 : (truthy (fieldD parsed "token") &&
              truthy (fieldD parsed "user")) = true
          · rw [Bool.and_eq_true] at h3
            simp only [h3.1, h3.2, Bool.and_self, if_true]
            have hoc : objWithoutCreds (some raw) = false := by
              simp [objWithoutCreds, h1, hp, h2.1, h2.2, h3.1, h3.2]
            cases hts : fieldD parsed "token" with
            | str ts =>
              rcases restoreFromToken_spec raw ts (fieldD parsed "user") now with
                ⟨hr, hok⟩ | ⟨hr, hok⟩
              · exfalso
                have hv : validSessionSlot (some raw) now = true := by
                  simp [validSessionSlot, h1, hp, hts, h2.1, h2.2, h3.1, h3.2, hok]
                  exact hts ▸ h3.1
                rw [hv] at h
                exact Bool.noConfusion h
              · simp [hr, hoc, clearedState]
            | null => simp [hoc, clearedState]
            | undefined => simp [hoc, clearedState]
            | bool b => simp [hoc, clearedState]
            | num n => simp [hoc, clearedState]
            | arr xs => simp [hoc, clearedState]
            | obj fs2 => simp [hoc, clearedState]
          · have h3f : (truthy (fieldD parsed "token") &&
                truthy (fieldD parsed "user")) = false := Bool.eq_false_iff.mpr h3
            simp only [h3f, if_false]
            simp [objWithoutCreds, h1, hp, h2.1, h2.2, h3f]
        · have h2f : (truthy parsed && typeofObject parsed) = false :=
            Bool.eq_false_iff.mpr h2
          simp only [h2f, Bool.not_false, if_true]
          simp [clearedState, objWithoutCreds, h1, hp, h2f]


/-- Claim C3 witness: the amended theorem applied to the non-JSON slot
`"not json"` (cleared) — with the hypothesis discharged by evaluation. -/
theorem C3_restore_malformed_witness :
    validSessionSlot (some "not json") 0 = false ∧
    initializeAuth (some "not json") 0 = ⟨none, .null, .null, false⟩ :=
  ⟨rfl, C3_restore_malformed (some "not json") 0 rfl⟩

/-! ## Claim C4 — refreshToken: no-op without a token, logout on failure -/

/-- Claim C4 (confirmed): with no current token `refreshToken` returns
failure immediately and leaves the whole state (including storage)
untouched; with a token, any failing fetch outcome (network error, non-OK
status, or unparsable body) drives the state through `logout` — storage
cleared, token and user nulled, not authenticated — and returns failure. -/
theorem C4_refresh_failure (st : AuthState) (o lo : FetchOutcome) :
    (truthy st.token = false → refreshToken st o lo = (st, false)) ∧
    (truthy st.token = true → fetchFailed o = true →
      refreshToken st o lo = (clearedState, false)) := by
  constructor
  · intro h
    simp [refreshToken, h]
  · intro h ho
    cases o with
    | threw m => simp [refreshToken, h, logout]
    | response ok json =>
      cases json with
      | error m => simp [refreshToken, h, logout, fetchFailed] at ho ⊢
      | ok data =>
        simp only [fetchFailed, Bool.not_eq_true'] at ho
        simp [refreshToken, h, ho, logout]

/-- Claim C4 witness: the theorem applied to a token-less state and to an
authenticated state with a network error. -/
theorem C4_refresh_failure_witness :
    refreshToken ⟨none, .null, .null, false⟩ (.threw "x") (.threw "y") =
      (⟨none, .null, .null, false⟩, false) ∧
    refreshToken ⟨some "s", .str "t", .null, true⟩ (.threw "x") (.threw "y") =
      (clearedState, false) :=
  ⟨(C4_refresh_failure ⟨none, .null, .null, false⟩ (.threw "x") (.threw "y")).1 rfl,
   (C4_refresh_failure ⟨some "s", .str "t", .null, true⟩ (.threw "x")
      (.threw "y")).2 rfl rfl⟩

/-! ## Claim C5 — idempotent registration -/

/-- `emailCount` zero makes the existence query miss, and related helper
facts about the register handler's branches. -/
theorem findByEmail_none_of_count (store : List UserRecord) (e : String)
    (h : emailCount store e = 0) : findByEmail store (.str e) = none := by
  unfold findByEmail
  rw [List.find?_eq_none]
  intro r hr
  exact List.countP_eq_zero.mp h r hr

theorem findByEmail_append_one (store : List UserRecord) (e : String)
    (rec : UserRecord) (h : emailCount store e = 0)
    (hrec : rec.email = JsValue.str e) :
    findByEmail (store ++ [rec]) (.str e) = some rec := by
  have h0 := findByEmail_none_of_count store e h
  unfold findByEmail at h0 ⊢
  rw [List.find?_append, h0]
  simp [List.find?, jsStrEq, hrec]

theorem register_fresh_store (jwtSecret db : JsValue) (store : List UserRecord)
    (data fn pw : JsValue) (e : String) (now1 now2 : Nat) (freshId : String)
    (hashHex : String → String) (sign : List Char → List Char → List Nat)
    (h1 : truthy jwtSecret = true) (h2 : truthy db = true)
    (ha : fieldAccess data "firstName" = some fn)
    (hb : fieldAccess data "email" = some (.str e))
    (hc : fieldAccess data "password" = some pw)
    (hv : (truthy fn && truthy (JsValue.str e) && truthy pw) = true)
    (hr : emailRegexTest e = true)
    (hf : findByEmail store (.str e) = none) :
    (RegisterApi.onRequestPost jwtSecret db store (.ok data) now1 now2 freshId
        hashHex sign).2 =
      store ++ [⟨freshId, fn, .str e, hashHex (jsToString pw)⟩] := by
  cases htk : generateJWT sign
      (jsonStringify (regTokenPayload freshId (.str e) fn now1 now2)).data
      (jsToString jwtSecret).data with
  | some tok =>
    simp [RegisterApi.onRequestPost, h1, h2, ha, hb, hc, hv, hr, hf, htk,
      jsToString]
  | none =>
    simp [RegisterApi.onRequestPost, h1, h2, ha, hb, hc, hv, hr, hf, htk,
      jsToString]

theorem register_conflict (jwtSecret db : JsValue) (store : List UserRecord)
    (data fn pw : JsValue) (e : String) (r : UserRecord) (now1 now2 : Nat)
    (freshId : String) (hashHex : String → String)
    (sign : List Char → List Char → List Nat)
    (h1 : truthy jwtSecret = true) (h2 : truthy db = true)
    (ha : fieldAccess data "firstName" = some fn)
    (hb : fieldAccess data "email" = some (.str e))
    (hc : fieldAccess data "password" = some pw)
    (hv : (truthy fn && truthy (JsValue.str e) && truthy pw) = true)
    (hr : emailRegexTest e = true)
    (hf : findByEmail store (.str e) = some r) :
    RegisterApi.onRequestPost jwtSecret db store (.ok data) now1 now2 freshId
        hashHex sign =
      (⟨409, errorBody "USER_EXISTS" "User with this email already exists"⟩,
       store) := by
  simp [RegisterApi.onRequestPost, h1, h2, ha, hb, hc, hv, hr, hf, jsToString]

/-- Full characterization of a fresh, valid registration's response, given
that the token signing succeeded. -/
theorem register_fresh_response (jwtSecret db : JsValue)
    (store : List UserRecord) (data fn pw : JsValue) (e : String)
    (now1 now2 : Nat) (freshId : String) (hashHex : String → String)
    (sign : List Char → List Char → List Nat) (tok : List Char)
    (h1 : truthy jwtSecret = true) (h2 : truthy db = true)
    (ha : fieldAccess data "firstName" = some fn)
    (hb : fieldAccess data "email" = some (.str e))
    (hc : fieldAccess data "password" = some pw)
    (hv : (truthy fn && truthy (JsValue.str e) && truthy pw) = true)
    (hr : emailRegexTest e = true)
    (hf : findByEmail store (.str e) = none)
    (htk : generateJWT sign
        (jsonStringify (regTokenPayload freshId (.str e) fn now1 now2)).data
        (jsToString jwtSecret).data = some tok) :
    RegisterApi.onRequestPost jwtSecret db store (.ok data) now1 now2 freshId
        hashHex sign =
      (⟨201, .obj [("success", .bool true),
                   ("user", .obj [("id", .str freshId), ("firstName", fn),
                                  ("email", .str e)]),
                   ("token", .str (String.mk tok))]⟩,
       store ++ [⟨freshId, fn, .str e, hashHex (jsToString pw)⟩]) := by
  simp [RegisterApi.onRequestPost, h1, h2, ha, hb, hc, hv, hr, hf, htk,
    jsToString]

/-- Claim C5 (confirmed): with a valid environment and a valid body whose
email is not yet in the store, a second `onRequestPost` with the same email
returns 409 with the `USER_EXISTS` error body, leaves the store of the
first call unchanged, and the store holds exactly one record for that
email after the two sequential calls. -/
theorem C5_register_idempotent (jwtSecret db : JsValue) (store : List UserRecord)
    (data fn pw : JsValue) (e : String) (now1 now2 now3 now4 : Nat)
    (id1 id2 : String)
    (hashHex : String → String) (sign : List Char → List Char → List Nat)
    (h1 : truthy jwtSecret = true) (h2 : truthy db = true)
    (ha : fieldAccess data "firstName" = some fn)
    (hb : fieldAccess data "email" = some (.str e))
    (hc : fieldAccess data "password" = some pw)
    (hv : (truthy fn && truthy (JsValue.str e) && truthy pw) = true)
    (hr : emailRegexTest e = true)
    (hcount : emailCount store e = 0) :
    (RegisterApi.onRequestPost jwtSecret db
        (RegisterApi.onRequestPost jwtSecret db store (.ok data) now1 now2 id1
          hashHex sign).2 (.ok data) now3 now4 id2 hashHex sign).1.status = 409 ∧
    (RegisterApi.onRequestPost jwtSecret db
        (RegisterApi.onRequestPost jwtSecret db store (.ok data) now1 now2 id1
          hashHex sign).2 (.ok data) now3 now4 id2 hashHex sign).1.body =
      errorBody "USER_EXISTS" "User with this email already exists" ∧
    (RegisterApi.onRequestPost jwtSecret db
        (RegisterApi.onRequestPost jwtSecret db store (.ok data) now1 now2 id1
          hashHex sign).2 (.ok data) now3 now4 id2 hashHex sign).2 =
      (RegisterApi.onRequestPost jwtSecret db store (.ok data) now1 now2 id1
        hashHex sign).2 ∧
    emailCount (RegisterApi.onRequestPost jwtSecret db
        (RegisterApi.onRequestPost jwtSecret db store (.ok data) now1 now2 id1
          hashHex sign).2 (.ok data) now3 now4 id2 hashHex sign).2 e = 1 := by
  have hf0 := findByEmail_none_of_count store e hcount
  have hs1 := register_fresh_store jwtSecret db store data fn pw e now1 now2
    id1 hashHex sign h1 h2 ha hb hc hv hr hf0
  have hf1 : findByEmail ((RegisterApi.onRequestPost jwtSecret db store
      (.ok data) now1 now2 id1 hashHex sign).2) (.str e) =
      some ⟨id1, fn, .str e, hashHex (jsToString pw)⟩ := by
    rw [hs1]
    exact findByEmail_append_one store e _ hcount rfl
  have hc2 := register_conflict jwtSecret db _ data fn pw e _ now3 now4 id2
    hashHex sign h1 h2 ha hb hc hv hr hf1
  refine ⟨?_, ?_, ?_, ?_⟩
  · rw [hc2]
  · rw [hc2]
  · rw [hc2]
  · rw [hc2, hs1]
    simp only [emailCount] at hcount ⊢
    rw [List.countP_append, hcount]
    simp [List.countP, List.countP.go, jsStrEq]

end Promptomatik

namespace Promptomatik


/-! ## Claim C6 — successful registration response -/

/-- Claim C6, counterexample: the handler's `iat` and `exp` lines each
call `Date.now()` separately; when the second read crosses a second
boundary — here `now1 = 999` and `now2 = 1000`, one millisecond apart —
the successful (201) registration issues a token whose decoded payload
has `iat = 0` and `exp = 86401`, so `exp - iat = 86401 ≠ 86400`, refuting
the claimed fixed difference. -/
theorem C6_register_counterexample :
    RegisterApi.onRequestPost (.str "s") (.bool true) []
        (.ok (.obj [("firstName", .str "Alice"),
                    ("email", .str "alice@example.com"),
                    ("password", .str "pw123")])) 999 1000 "u1" (fun _ => "h")
        (fun _ _ => []) =
      (⟨201, .obj [("success", .bool true),
                   ("user", .obj [("id", .str "u1"),
                                  ("firstName", .str "Alice"),
                                  ("email", .str "alice@example.com")]),
                   ("token", .str "eyJhbGciOiJIUzI1NiIsInR5cCI6IkpXVCJ9.eyJ1c2VySWQiOiJ1MSIsImVtYWlsIjoiYWxpY2VAZXhhbXBsZS5jb20iLCJmaXJzdE5hbWUiOiJBbGljZSIsImlhdCI6MCwiZXhwIjo4NjQwMX0.")]⟩,
       [⟨"u1", .str "Alice", .str "alice@example.com", "h"⟩]) ∧
    decodeStoredToken "eyJhbGciOiJIUzI1NiIsInR5cCI6IkpXVCJ9.eyJ1c2VySWQiOiJ1MSIsImVtYWlsIjoiYWxpY2VAZXhhbXBsZS5jb20iLCJmaXJzdE5hbWUiOiJBbGljZSIsImlhdCI6MCwiZXhwIjo4NjQwMX0." =
      some (.obj [("userId", .str "u1"), ("email", .str "alice@example.com"),
                  ("firstName", .str "Alice"), ("iat", .num 0),
                  ("exp", .num 86401)]) ∧
    (86401 : Int) - 0 ≠ 86400 :=
  ⟨register_fresh_response (.str "s") (.bool true) []
      (.obj [("firstName", .str "Alice"), ("email", .str "alice@example.com"),
             ("password", .str "pw123")])
      (.str "Alice") (.str "pw123") "alice@example.com" 999 1000 "u1"
      (fun _ => "h") (fun _ _ => [])
      ("eyJhbGciOiJIUzI1NiIsInR5cCI6IkpXVCJ9.eyJ1c2VySWQiOiJ1MSIsImVtYWlsIjoiYWxpY2VAZXhhbXBsZS5jb20iLCJmaXJzdE5hbWUiOiJBbGljZSIsImlhdCI6MCwiZXhwIjo4NjQwMX0.".data)
      rfl rfl rfl rfl rfl rfl (by decide) rfl rfl,
   rfl, by decide⟩

/-- Claim C6 (amended): a successful register on a store without the
email returns 201 whose body holds `success`, a `user` object of exactly
`id`/`firstName`/`email`, and the signed token of `regTokenPayload` —
whose `email` field is the request email and whose `exp` and `iat` come
from the seconds of the two clock reads, differing by
`86400 + (⌊now2/1000⌋ - ⌊now1/1000⌋)`, hence by exactly 86400 whenever
both `Date.now()` reads fall in the same second; the token payload
round-trips through the client decode; and every string occurring in the
response body is the fresh id, part of the first name, the email, or the
token — so neither the password nor its digest is ever returned. -/
theorem C6_register_success (jwtSecret db : JsValue) (store : List UserRecord)
    (data fn pw : JsValue) (e : String) (now1 now2 : Nat) (freshId : String)
    (hashHex : String → String) (sign : List Char → List Char → List Nat)
    (tok : List Char)
    (h1 : truthy jwtSecret = true) (h2 : truthy db = true)
    (ha : fieldAccess data "firstName" = some fn)
    (hb : fieldAccess data "email" = some (.str e))
    (hc : fieldAccess data "password" = some pw)
    (hv : (truthy fn && truthy (JsValue.str e) && truthy pw) = true)
    (hr : emailRegexTest e = true)
    (hf : findByEmail store (.str e) = none)
    (htk : generateJWT sign
        (jsonStringify (regTokenPayload freshId (.str e) fn now1 now2)).data
        (jsToString jwtSecret).data = some tok)
    (hplus : '+' ∉ b64NoPad
        ((jsonStringify (regTokenPayload freshId (.str e) fn now1 now2)).data.map
          Char.toNat))
    (hslash : '/' ∉ b64NoPad
        ((jsonStringify (regTokenPayload freshId (.str e) fn now1 now2)).data.map
          Char.toNat)) :
    RegisterApi.onRequestPost jwtSecret db store (.ok data) now1 now2 freshId
        hashHex sign =
      (⟨201, .obj [("success", .bool true),
                   ("user", .obj [("id", .str freshId), ("firstName", fn),
                                  ("email", .str e)]),
                   ("token", .str (String.mk tok))]⟩,
       store ++ [⟨freshId, fn, .str e, hashHex (jsToString pw)⟩]) ∧
    decodeStoredToken (String.mk tok) =
      jsonParse (jsonStringify (regTokenPayload freshId (.str e) fn now1 now2)) ∧
    fieldD (regTokenPayload freshId (.str e) fn now1 now2) "email" = .str e ∧
    jsToNumber (fieldD (regTokenPayload freshId (.str e) fn now1 now2) "iat") =
      some ((now1 / 1000 : Nat) : Int) ∧
    jsToNumber (fieldD (regTokenPayload freshId (.str e) fn now1 now2) "exp") =
      some (((now2 / 1000 : Nat) : Int) + 86400) ∧
    (((now2 / 1000 : Nat) : Int) + 86400) - ((now1 / 1000 : Nat) : Int) =
      86400 + (((now2 / 1000 : Nat) : Int) - ((now1 / 1000 : Nat) : Int)) ∧
    (now2 / 1000 = now1 / 1000 →
      (((now2 / 1000 : Nat) : Int) + 86400) - ((now1 / 1000 : Nat) : Int) =
        86400) ∧
    (∀ x : String, occursIn x (.obj [("success", .bool true),
         ("user", .obj [("id", .str freshId), ("firstName", fn),
                        ("email", .str e)]),
         ("token", .str (String.mk tok))]) = true →
       x = freshId ∨ occursIn x fn = true ∨ x = e ∨ x = String.mk tok) := by
  refine ⟨?_, ?_, rfl, rfl, rfl, by omega, fun h => by omega, ?_⟩
  · simp [RegisterApi.onRequestPost, h1, h2, ha, hb, hc, hv, hr, hf, htk,
      jsToString]
  · exact decodeStoredToken_generateJWT sign _ _ tok htk hplus hslash
  · intro x hx
    simp [occursIn, stringLeaves, stringLeavesObj, stringLeavesArr] at hx
    rcases hx with rfl | hmem | rfl | rfl
    · exact Or.inl rfl
    · exact Or.inr (Or.inl (by
        unfold occursIn
        exact List.elem_eq_true_of_mem hmem))
    · exact Or.inr (Or.inr (Or.inl rfl))
    · exact Or.inr (Or.inr (Or.inr rfl))

/-- Claim C5 witness: two concrete register calls for
`alice@example.com`; and Claim C6 witness below it. -/
theorem C5_register_idempotent_witness :
    (RegisterApi.onRequestPost (.str "s") (.bool true)
        (RegisterApi.onRequestPost (.str "s") (.bool true) []
          (.ok (.obj [("firstName", .str "Alice"),
                      ("email", .str "alice@example.com"),
                      ("password", .str "pw123")])) 0 0 "u1" (fun _ => "h")
          (fun _ _ => [])).2
        (.ok (.obj [("firstName", .str "Alice"),
                    ("email", .str "alice@example.com"),
                    ("password", .str "pw123")])) 5000 5000 "u2" (fun _ => "h")
        (fun _ _ => [])).1.status = 409 ∧
    emailCount (RegisterApi.onRequestPost (.str "s") (.bool true)
        (RegisterApi.onRequestPost (.str "s") (.bool true) []
          (.ok (.obj [("firstName", .str "Alice"),
                      ("email", .str "alice@example.com"),
                      ("password", .str "pw123")])) 0 0 "u1" (fun _ => "h")
          (fun _ _ => [])).2
        (.ok (.obj [("firstName", .str "Alice"),
                    ("email", .str "alice@example.com"),
                    ("password", .str "pw123")])) 5000 5000 "u2" (fun _ => "h")
        (fun _ _ => [])).2 "alice@example.com" = 1 := by
  have h := C5_register_idempotent (.str "s") (.bool true) []
    (.obj [("firstName", .str "Alice"), ("email", .str "alice@example.com"),
           ("password", .str "pw123")])
    (.str "Alice") (.str "pw123") "alice@example.com" 0 0 5000 5000 "u1" "u2"
    (fun _ => "h") (fun _ _ => []) rfl rfl rfl rfl rfl rfl (by decide) rfl
  exact ⟨h.1, h.2.2.2⟩

/-- Claim C6 witness: the amended theorem at the concrete Alice
registration with both clock reads at 0, where the same-second hypothesis
holds and the difference is exactly 86400. -/
theorem C6_register_success_witness :
    RegisterApi.onRequestPost (.str "s") (.bool true) []
        (.ok (.obj [("firstName", .str "Alice"),
                    ("email", .str "alice@example.com"),
                    ("password", .str "pw123")])) 0 0 "u1" (fun _ => "h")
        (fun _ _ => []) =
      (⟨201, .obj [("success", .bool true),
                   ("user", .obj [("id", .str "u1"),
                                  ("firstName", .str "Alice"),
                                  ("email", .str "alice@example.com")]),
                   ("token", .str "eyJhbGciOiJIUzI1NiIsInR5cCI6IkpXVCJ9.eyJ1c2VySWQiOiJ1MSIsImVtYWlsIjoiYWxpY2VAZXhhbXBsZS5jb20iLCJmaXJzdE5hbWUiOiJBbGljZSIsImlhdCI6MCwiZXhwIjo4NjQwMH0.")]⟩,
       [⟨"u1", .str "Alice", .str "alice@example.com", "h"⟩]) ∧
    decodeStoredToken "eyJhbGciOiJIUzI1NiIsInR5cCI6IkpXVCJ9.eyJ1c2VySWQiOiJ1MSIsImVtYWlsIjoiYWxpY2VAZXhhbXBsZS5jb20iLCJmaXJzdE5hbWUiOiJBbGljZSIsImlhdCI6MCwiZXhwIjo4NjQwMH0." =
      jsonParse (jsonStringify (regTokenPayload "u1" (.str "alice@example.com")
        (.str "Alice") 0 0)) ∧
    (((0 / 1000 : Nat) : Int) + 86400) - ((0 / 1000 : Nat) : Int) = 86400 := by
  have h := C6_register_success (.str "s") (.bool true) []
    (.obj [("firstName", .str "Alice"), ("email", .str "alice@example.com"),
           ("password", .str "pw123")])
    (.str "Alice") (.str "pw123") "alice@example.com" 0 0 "u1" (fun _ => "h")
    (fun _ _ => [])
    ("eyJhbGciOiJIUzI1NiIsInR5cCI6IkpXVCJ9.eyJ1c2VySWQiOiJ1MSIsImVtYWlsIjoiYWxpY2VAZXhhbXBsZS5jb20iLCJmaXJzdE5hbWUiOiJBbGljZSIsImlhdCI6MCwiZXhwIjo4NjQwMH0.".data)
    rfl rfl rfl rfl rfl rfl (by decide) rfl rfl (by decide) (by decide)
  exact ⟨h.1, h.2.1, h.2.2.2.2.2.2.1 rfl⟩


/-! ## Claim C7 — error responses carry only a taxonomy code and message -/

/-- Claim C7, counterexample: the debugging registration handler's
missing-`JWT_SECRET` response leaks the environment's key names
(`availableKeys`) to the client and has no taxonomy `code` field at all,
refuting the claim for "every server-side registration handler". -/
theorem C7_debug_leak_counterexample :
    (DebugApi.onRequestPost [("SOME_KEY", .str "v")] (.ok ()) (.ok .null)
        ("", "")).status = 500 ∧
    fieldD (fieldD (DebugApi.onRequestPost [("SOME_KEY", .str "v")] (.ok ())
        (.ok .null) ("", "")).body "error") "availableKeys" =
      .arr [.str "SOME_KEY"] ∧
    fieldD (fieldD (DebugApi.onRequestPost [("SOME_KEY", .str "v")] (.ok ())
        (.ok .null) ("", "")).body "error") "code" = .undefined :=
  ⟨rfl, rfl, rfl⟩

/-- Claim C7 (amended): the main registration handler's non-201 responses
always consist of exactly `\x7b success:false, error:\x7b code, message \x7d \x7d`
with one of the six fixed taxonomy code/generic-message pairs — no stack
traces, exception details, or environment key names. -/
theorem C7_register_error_bodies (jwtSecret db : JsValue) (store : List UserRecord)
    (body : ReqBody) (now1 now2 : Nat) (freshId : String)
    (hashHex : String → String) (sign : List Char → List Char → List Nat) :
    (RegisterApi.onRequestPost jwtSecret db store body now1 now2 freshId hashHex
        sign).1.status = 201 ∨
    ∃ c m,
      (RegisterApi.onRequestPost jwtSecret db store body now1 now2 freshId
          hashHex sign).1.body = errorBody c m ∧
      (c, m) ∈ [("CONFIG_ERROR", "JWT configuration missing"),
                ("CONFIG_ERROR", "Database configuration missing"),
                ("VALIDATION_ERROR",
                 "Missing required fields: firstName, email, password"),
                ("VALIDATION_ERROR", "Invalid email format"),
                ("USER_EXISTS", "User with this email already exists"),
                ("INTERNAL_ERROR", "Registration failed")] := by
  by_cases h1 : truthy jwtSecret = true
  · by_cases h2 : truthy db = true
    · cases body with
      | threw m s =>
        right
        exact ⟨"INTERNAL_ERROR", "Registration failed",
          by simp [RegisterApi.onRequestPost, h1, h2], by simp⟩
      | ok data =>
        cases ha : fieldAccess data "firstName" with
        | none =>
          right
          exact ⟨"INTERNAL_ERROR", "Registration failed",
            by simp [RegisterApi.onRequestPost, h1, h2, ha], by simp⟩
        | some fn =>
          cases hb : fieldAccess data "email" with
          | none =>
            right
            exact ⟨"INTERNAL_ERROR", "Registration failed",
              by simp [RegisterApi.onRequestPost, h1, h2, ha, hb], by simp⟩
          | some em =>
            cases hc : fieldAccess data "password" with
            | none =>
              right
              exact ⟨"INTERNAL_ERROR", "Registration failed",
                by simp [RegisterApi.onRequestPost, h1, h2, ha, hb, hc], by simp⟩
            | some pw =>
              by_cases hv : (truthy fn && truthy em && truthy pw) = true
              · by_cases hr : emailRegexTest (jsToString em) = true
                · cases hf : findByEmail store em with
                  | some r =>
                    right
                    exact ⟨"USER_EXISTS", "User with this email already exists",
                      by simp [RegisterApi.onRequestPost, h1, h2, ha, hb, hc,
                        hv, hr, hf], by simp⟩
                  | none =>
                    cases htk : generateJWT sign
                        (jsonStringify (regTokenPayload freshId em fn now1
                          now2)).data
                        (jsToString jwtSecret).data with
                    | some tok =>
                      left
                      simp [RegisterApi.onRequestPost, h1, h2, ha, hb, hc, hv,
                        hr, hf, htk]
                    | none =>
                      right
                      exact ⟨"INTERNAL_ERROR", "Registration failed",
                        by simp [RegisterApi.onRequestPost, h1, h2, ha, hb, hc,
                          hv, hr, hf, htk], by simp⟩
                · right
                  exact ⟨"VALIDATION_ERROR", "Invalid email format",
                    by simp [RegisterApi.onRequestPost, h1, h2, ha, hb, hc, hv,
                      Bool.eq_false_iff.mpr hr], by simp⟩
              · right
                exact ⟨"VALIDATION_ERROR",
                  "Missing required fields: firstName, email, password",
                  by simp [RegisterApi.onRequestPost, h1, h2, ha, hb, hc,
                    Bool.eq_false_iff.mpr hv], by simp⟩
    · right
      exact ⟨"CONFIG_ERROR", "Database configuration missing",
        by simp [RegisterApi.onRequestPost, h1, Bool.eq_false_iff.mpr h2], by simp⟩
  · right
    exact ⟨"CONFIG_ERROR", "JWT configuration missing",
      by simp [RegisterApi.onRequestPost, Bool.eq_false_iff.mpr h1], by simp⟩

/-! ## Claim C8 — runMigration listener bookkeeping and terminal status -/

/-- Claim C8, counterexample: a call passing the already-running guard
whose `migratePrompts` throws registers the progress listener but never
unregisters it — the catch block lacks the `removeListener()` call — so
the claim's "unregisters the listener in all cases" fails. -/
theorem C8_listener_counterexample :
    (⟨false, false, none, false, none⟩ : MigrationStatus).isRunning = false ∧
    (runMigration ⟨false, false, none, false, none⟩ [] (.threw "boom")).listenerRegistered
      = true ∧
    (runMigration ⟨false, false, none, false, none⟩ [] (.threw "boom")).listenerRemoved
      = false :=
  ⟨rfl, rfl, rfl⟩

/-- Claim C8 (amended): every call passing the guard registers the
listener; on resolution the listener is unregistered before leaving
Running and the terminal status is `completed`, or `completed_with_errors`
when `failed > 0`; on a thrown error the status is `failed`, the error is
re-thrown — but the listener is NOT unregistered. -/
theorem C8_runMigration_amended (st : MigrationStatus) (events : List MigProgress)
    (o : MigOutcome) (h : st.isRunning = false) :
    (runMigration st events o).listenerRegistered = true ∧
    (∀ t m f, o = .ok t m f →
      (runMigration st events o).listenerRemoved = true ∧
      (runMigration st events o).result = .ok (t, m, f) ∧
      (runMigration st events o).final.isRunning = false ∧
      ((runMigration st events o).final.progress.map MigProgress.status) =
        some (if f > 0 then "completed_with_errors" else "completed")) ∧
    (∀ msg, o = .threw msg →
      (runMigration st events o).listenerRemoved = false ∧
      (runMigration st events o).result = .error msg ∧
      (runMigration st events o).final.isRunning = false ∧
      ((runMigration st events o).final.progress.map MigProgress.status) =
        some "failed") := by
  refine ⟨?_, ?_, ?_⟩
  · cases o <;> simp [runMigration, h]
  · intro t m f ho
    subst ho
    simp [runMigration, h]
  · intro msg ho
    subst ho
    simp [runMigration, h]

/-- Claim C8 witness: the amended theorem at a concrete successful run
with one failure and at a concrete throwing run. -/
theorem C8_runMigration_witness :
    (runMigration ⟨false, false, none, false, none⟩ [] (.ok 2 1 1)).listenerRemoved
      = true ∧
    ((runMigration ⟨false, false, none, false, none⟩ []
        (.ok 2 1 1)).final.progress.map MigProgress.status) =
      some "completed_with_errors" ∧
    (runMigration ⟨false, false, none, false, none⟩ [] (.threw "boom")).result =
      .error "boom" := by
  have h := C8_runMigration_amended ⟨false, false, none, false, none⟩ [] (.ok 2 1 1) rfl
  have h2 := C8_runMigration_amended ⟨false, false, none, false, none⟩ []
    (.threw "boom") rfl
  exact ⟨(h.2.1 2 1 1 rfl).1, (h.2.1 2 1 1 rfl).2.2.2, (h2.2.2 "boom" rfl).2.1⟩

/-! ## Claim C9 — failing login/register leaves the client state unchanged -/

/-- Claim C9 (confirmed): for every failing fetch outcome (network error,
unparsable body, non-OK status), `login` and `register` return
`success: false` and leave the persisted slot and the in-memory state
exactly as they were — no write happens before the failure points. -/
theorem C9_client_failure_preserves_state (st : AuthState) (o : FetchOutcome)
    (h : fetchFailed o = true) :
    (login st o).1 = st ∧ (login st o).2.success = false ∧
    (registerClient st o).1 = st ∧ (registerClient st o).2.success = false := by
  cases o with
  | threw m => exact ⟨rfl, rfl, rfl, rfl⟩
  | response ok json =>
    cases json with
    | error m => exact ⟨rfl, rfl, rfl, rfl⟩
    | ok data =>
      simp only [fetchFailed, Bool.not_eq_true'] at h
      simp [login, registerClient, h]

/-- Claim C9 witness: the theorem at an authenticated state and a network
error. -/
theorem C9_client_failure_witness :
    (login ⟨some "s", .str "t", .obj [], true⟩ (.threw "network")).1 =
      ⟨some "s", .str "t", .obj [], true⟩ ∧
    (login ⟨some "s", .str "t", .obj [], true⟩ (.threw "network")).2.success = false ∧
    (registerClient ⟨some "s", .str "t", .obj [], true⟩ (.threw "network")).1 =
      ⟨some "s", .str "t", .obj [], true⟩ ∧
    (registerClient ⟨some "s", .str "t", .obj [], true⟩
        (.threw "network")).2.success = false :=
  C9_client_failure_preserves_state ⟨some "s", .str "t", .obj [], true⟩
    (.threw "network") rfl

/-! ## Claim C10 — totality of ApiService.getToken -/

/-- Claim C10 (confirmed): `getToken` is a total function of the persisted
slot; whenever it returns anything but `null`, the slot held a string that
parses to a truthy JSON object with a truthy `token` field, and the result
is exactly that field — so absent, non-JSON, non-object, and token-less
slots all yield `null` rather than an exception. -/
theorem C10_getToken_total (slot : Option String)
    (h : (ApiService.getToken slot).isNull = false) :
    ∃ raw parsed, slot = some raw ∧ jsonParse raw = some parsed ∧
      truthy parsed = true ∧ typeofObject parsed = true ∧
      truthy (fieldD parsed "token") = true ∧
      ApiService.getToken slot = fieldD parsed "token" := by
  cases slot with
  | none => simp [ApiService.getToken, JsValue.isNull] at h
  | some raw =>
    simp only [ApiService.getToken] at h ⊢
    by_cases h0 : raw = ""
    · simp [h0, JsValue.isNull] at h
    · rw [if_neg h0] at h ⊢
      cases hp : jsonParse raw with
      | none =>
        rw [hp] at h
        simp [JsValue.isNull] at h
      | some parsed =>
        rw [hp] at h
        refine ⟨raw, parsed, rfl, hp, ?_⟩
        by_cases h2 : (truthy parsed && typeofObject parsed) = true
        · rw [Bool.and_eq_true] at h2
          by_cases h3 : truthy (fieldD parsed "token") = true
          · exact ⟨h2.1, h2.2, h3, by simp [h2.1, h2.2, h3]⟩
          · exfalso
            simp [h2.1, h2.2, Bool.eq_false_iff.mpr h3, JsValue.isNull] at h
        · exfalso
          simp [Bool.eq_false_iff.mpr h2, JsValue.isNull] at h

/-- Claim C10 witness: the theorem at a concrete slot holding a token. -/
theorem C10_getToken_witness :
    (ApiService.getToken (some "\x7b\"token\":\"abc\"\x7d")).isNull = false ∧
    (∃ raw parsed, (some "\x7b\"token\":\"abc\"\x7d" : Option String) = some raw ∧
      jsonParse raw = some parsed ∧
      truthy parsed = true ∧ typeofObject parsed = true ∧
      truthy (fieldD parsed "token") = true ∧
      ApiService.getToken (some "\x7b\"token\":\"abc\"\x7d") = fieldD parsed "token") :=
  ⟨rfl, C10_getToken_total (some "\x7b\"token\":\"abc\"\x7d") rfl⟩

end Promptomatik
